import Mathlib

/-!
Shallow embedding of the maek fund-accounting program
(src/programs/maek-protocol) and verification of the spec claims.

Machine integers (u64) are modelled as Nat; `checked_*` operations mirror
Rust's `checked_add`/`checked_sub`/`checked_mul`/`checked_div` combined with
`.ok_or(ErrorCode::MathOverflow)?` as used throughout the source.  Unchecked
u64 arithmetic in the source is modelled as plain Nat arithmetic; every
general theorem below carries explicit range hypotheses where a u64 overflow
would otherwise be reachable.  Fallible Rust functions returning
`Result<T>` are modelled as `Except ErrorCode T`.
-/

namespace Maek

/-- Maximum value of a u64, `u64::MAX`. -/
def U64_MAX : Nat := 18446744073709551615

/-- Error codes from src/programs/maek-protocol/src/error.rs (the subset
reachable from the embedded operations). -/
inductive ErrorCode where
  | fundPaused
  | depositTooSmall
  | depositTooLarge
  | withdrawAmountZero
  | insufficientFundTokens
  | insufficientLiquidity
  | insufficientFunds
  | invalidNAV
  | navTooLow
  | navTooHigh
  | navUpdateTooFrequent
  | noSharesOutstanding
  | mathOverflow
  | invalidAmount
  | feeTooHigh
  | investmentAmountExceedsLimit
  | portfolioConcentrationExceeded
  deriving DecidableEq, Repr

/-- Rust `a.checked_add(b).ok_or(ErrorCode::MathOverflow)?` on u64. -/
def checked_add (a b : Nat) : Except ErrorCode Nat :=
  if a + b ≤ U64_MAX then .ok (a + b) else .error .mathOverflow

/-- Rust `a.checked_sub(b).ok_or(ErrorCode::MathOverflow)?` on u64. -/
def checked_sub (a b : Nat) : Except ErrorCode Nat :=
  if b ≤ a then .ok (a - b) else .error .mathOverflow

/-- Rust `a.checked_mul(b).ok_or(ErrorCode::MathOverflow)?` on u64. -/
def checked_mul (a b : Nat) : Except ErrorCode Nat :=
  if a * b ≤ U64_MAX then .ok (a * b) else .error .mathOverflow

/-- Rust `a.checked_div(b).ok_or(ErrorCode::MathOverflow)?` on u64
(`checked_div` is `none` exactly when the divisor is zero). -/
def checked_div (a b : Nat) : Except ErrorCode Nat :=
  if b = 0 then .error .mathOverflow else .ok (a / b)

/-- Embeds `calculate_fund_tokens` from
src/programs/maek-protocol/src/utils/calculations.rs lines 12-24.
The source multiplies the 6-decimal deposit amount by 100 (u128) and divides
by `nav_per_share`, then requires the quotient to fit in a u64. -/
def calculate_fund_tokens (deposit_amount nav_per_share : Nat) : Except ErrorCode Nat :=
  if nav_per_share = 0 then .error .invalidNAV
  else if deposit_amount = 0 then .error .invalidAmount
  else
    let numerator := deposit_amount * 100
    let fund_tokens := numerator / nav_per_share
    if fund_tokens > U64_MAX then .error .mathOverflow
    else .ok fund_tokens

/-- Embeds `calculate_withdrawal_amount` from
src/programs/maek-protocol/src/utils/calculations.rs lines 28-40:
`value_8_decimals = fund_tokens * nav_per_share / 100_000_000` (u128), then
`usdc_amount = value_8_decimals / 100`, required to fit in a u64. -/
def calculate_withdrawal_amount (fund_tokens nav_per_share : Nat) : Except ErrorCode Nat :=
  if fund_tokens = 0 then .error .invalidAmount
  else if nav_per_share = 0 then .error .invalidNAV
  else
    let value_8_decimals := fund_tokens * nav_per_share / 100000000
    let usdc_amount := value_8_decimals / 100
    if usdc_amount > U64_MAX then .error .mathOverflow
    else .ok usdc_amount

/-- Embeds `calculate_nav_per_share` from
src/programs/maek-protocol/src/utils/calculations.rs lines 43-54, including
the [95_000_000, 105_000_000] NAV band checks. -/
def calculate_nav_per_share (total_assets total_shares : Nat) : Except ErrorCode Nat :=
  if total_shares = 0 then .error .noSharesOutstanding
  else
    let nav := total_assets * 100000000 / total_shares
    if nav < 95000000 then .error .navTooLow
    else if nav > 105000000 then .error .navTooHigh
    else if nav > U64_MAX then .error .mathOverflow
    else .ok nav

/-- Embeds `calculate_daily_management_fee` from
src/programs/maek-protocol/src/utils/calculations.rs lines 57-68:
`annual_fee = total_assets * annual_fee_bps / 10_000` (u128), then
`daily_fee = annual_fee / 365`. -/
def calculate_daily_management_fee (total_assets annual_fee_bps : Nat) : Except ErrorCode Nat :=
  if total_assets = 0 then .error .invalidAmount
  else if annual_fee_bps > 500 then .error .feeTooHigh
  else
    let annual_fee := total_assets * annual_fee_bps / 10000
    let daily_fee := annual_fee / 365
    if daily_fee > U64_MAX then .error .mathOverflow
    else .ok daily_fee

/-- Embeds `update_nav_with_pnl` from
src/programs/maek-protocol/src/utils/calculations.rs lines 109-126.
A non-negative P&L is added with an (unchecked) u64 add; a loss larger than
the current assets is rejected with `InsufficientFunds`; the new NAV comes
from `calculate_nav_per_share`. -/
def update_nav_with_pnl (current_total_assets total_shares : Nat) (net_daily_pnl : Int) :
    Except ErrorCode (Nat × Nat) :=
  (if 0 ≤ net_daily_pnl then
      (.ok (current_total_assets + net_daily_pnl.toNat) : Except ErrorCode Nat)
    else
      let loss := (-net_daily_pnl).toNat
      if loss > current_total_assets then .error .insufficientFunds
      else .ok (current_total_assets - loss)).bind fun new_total_assets =>
    (calculate_nav_per_share new_total_assets total_shares).bind fun new_nav =>
      .ok (new_total_assets, new_nav)

/-- Composition of the deposit share computation with the withdrawal
computation at a fixed NAV, i.e. the constant-NAV round trip of spec item
8 (the amount returned after withdrawing all shares minted by a deposit). -/
def roundTrip (amount nav : Nat) : Except ErrorCode Nat :=
  (calculate_fund_tokens amount nav).bind fun shares =>
    calculate_withdrawal_amount shares nav

/-- FundState from src/programs/maek-protocol/src/state/fund_state.rs,
restricted to the fields read or written by the embedded instruction
handlers.  Pubkey-valued identity fields and the yield-history ring buffer
are not touched by the embedded logic and are omitted.  The NAV field is
documented in the source as 8-decimal fixed point with target
100_000_000 = one dollar. -/
structure FundState where
  total_assets : Nat
  total_shares : Nat
  nav_per_share : Nat
  last_nav_update : Int
  cash_reserves : Nat
  is_paused : Bool
  total_yield_distributed : Nat
  total_depositors : Nat
  deriving DecidableEq, Repr

/-- UserFundAccount from
src/programs/maek-protocol/src/state/user_account.rs, restricted to the
fields the deposit and withdraw handlers touch.  The owner Pubkey is
modelled as a Nat, with 0 standing for `Pubkey::default()`. -/
structure UserFundAccount where
  owner : Nat
  fund_tokens : Nat
  total_deposited : Nat
  total_withdrawn : Nat
  avg_cost_basis : Nat
  last_deposit_time : Int
  last_withdrawal_time : Int
  last_deposit_nav : Nat
  deposit_count : Nat
  withdrawal_count : Nat
  created_at : Int
  deriving DecidableEq, Repr

/-- AssetValuation input of the `update_nav` instruction
(src/programs/maek-protocol/src/instructions/update_nav.rs lines 5-9);
the asset id Pubkey is modelled as a Nat. -/
structure AssetValuation where
  asset_id : Nat
  current_value : Nat
  deriving DecidableEq, Repr

/-- Models the valuation-accumulation loop of `update_nav`
(update_nav.rs lines 39-41): a left fold of `checked_add` over the supplied
current values, starting from the cash-reserve base. -/
def sumValuations (start : Nat) (vals : List AssetValuation) : Except ErrorCode Nat :=
  match vals with
  | [] => .ok start
  | v :: rest =>
    (checked_add start v.current_value).bind fun s => sumValuations s rest

/-- Embeds the `update_nav` instruction handler from
src/programs/maek-protocol/src/instructions/update_nav.rs lines 24-67.
`now` is `Clock::get()?.unix_timestamp`.  The handler checks only the
23-hour rate limit; it performs no pause check and no NAV-band check, and
computes the new NAV as `new_total_assets.checked_div(total_shares)`
without any decimal scaling.  `cash_reserves * 100` is an unchecked u64
multiply in the source, modelled as plain Nat arithmetic. -/
def update_nav (st : FundState) (now : Int) (new_asset_valuations : List AssetValuation)
    (net_daily_pnl : Int) : Except ErrorCode FundState :=
  if now - st.last_nav_update < 82800 then .error .navUpdateTooFrequent
  else
    (sumValuations (st.cash_reserves * 100) new_asset_valuations).bind fun summed =>
    (if 0 ≤ net_daily_pnl then checked_add summed net_daily_pnl.toNat
      else checked_sub summed (-net_daily_pnl).toNat).bind fun new_total_assets =>
    (if 0 < st.total_shares then checked_div new_total_assets st.total_shares
      else .ok st.nav_per_share).bind fun nav' =>
    (if 0 < net_daily_pnl then checked_add st.total_yield_distributed net_daily_pnl.toNat
      else .ok st.total_yield_distributed).bind fun total_yield' =>
    .ok { st with nav_per_share := nav', total_assets := new_total_assets,
                  last_nav_update := now, total_yield_distributed := total_yield' }

/-- C1: the claim states `calculate_fund_tokens` returns
floor(amount × 10^8 × 10^2 / nav) and mints 100,000,000,000 shares for a
1,000,000,000 deposit at NAV 100,000,000.  The implementation multiplies by
100 instead of 10^10, so it returns 1,000 there, while the claim's formula
(also the function's own doc comment and the repository's tests) gives
100,000,000,000. -/
theorem C1_calculate_fund_tokens_divergence :
    calculate_fund_tokens 1000000000 100000000 = .ok 1000 ∧
    (1000000000 * 100000000 * 100 / 100000000 : Nat) = 100000000000 ∧
    (1000 : Nat) ≠ 100000000000 :=
  ⟨rfl, by norm_num, by norm_num⟩

/-- C2: the claim states the constant-NAV round trip returns the deposited
amount up to one minimal unit per conversion step.  Depositing
1,000,000,000 at NAV 100,000,000 and withdrawing all minted shares at the
same NAV returns 10, an error of 999,999,990 units, far beyond the claimed
bound (three conversion steps would allow at most 3 units). -/
theorem C2_round_trip_divergence :
    roundTrip 1000000000 100000000 = .ok 10 ∧ 10 + 3 < 1000000000 :=
  ⟨rfl, by norm_num⟩

/-- Embeds the `deposit` instruction handler from
src/programs/maek-protocol/src/instructions/deposit.rs lines 65-137.
`user_key` is the signer's key and `now` the clock timestamp; the USDC
transfer and fund-token mint are CPIs into the external token program and
have no effect on the embedded state.  Returns the updated fund state, the
updated user account and the number of fund tokens minted.  The source's
unchecked `amount * 100` cannot overflow under the amount bound checked
just before it. -/
def deposit (st : FundState) (ua : UserFundAccount) (user_key : Nat) (now : Int)
    (amount : Nat) : Except ErrorCode (FundState × UserFundAccount × Nat) :=
  if st.is_paused then .error .fundPaused
  else if amount < 1000000 then .error .depositTooSmall
  else if amount > 1000000000000 then .error .depositTooLarge
  else
    (calculate_fund_tokens amount st.nav_per_share).bind fun fund_tokens =>
    (checked_add st.total_assets (amount * 100)).bind fun total_assets' =>
    (checked_add st.total_shares fund_tokens).bind fun total_shares' =>
    (checked_add st.cash_reserves amount).bind fun cash_reserves' =>
    (if ua.owner = 0 then
        (checked_add st.total_depositors 1).bind fun d =>
          (.ok ({ ua with owner := user_key, created_at := now }, d) :
            Except ErrorCode (UserFundAccount × Nat))
      else .ok (ua, st.total_depositors)).bind fun init =>
    (checked_add init.1.fund_tokens fund_tokens).bind fun user_tokens' =>
    (checked_add init.1.total_deposited (amount * 100)).bind fun total_deposited' =>
    (checked_add init.1.deposit_count 1).bind fun deposit_count' =>
    (checked_sub user_tokens' fund_tokens).bind fun prev_tokens =>
    (checked_mul init.1.avg_cost_basis prev_tokens).bind fun cost_prev =>
    (checked_mul st.nav_per_share fund_tokens).bind fun cost_new =>
    (checked_add cost_prev cost_new).bind fun total_cost =>
    (checked_div total_cost user_tokens').bind fun avg_cost_basis' =>
    .ok ({ st with total_assets := total_assets', total_shares := total_shares',
                   cash_reserves := cash_reserves', total_depositors := init.2 },
         { init.1 with fund_tokens := user_tokens', total_deposited := total_deposited',
                       last_deposit_time := now, last_deposit_nav := st.nav_per_share,
                       deposit_count := deposit_count', avg_cost_basis := avg_cost_basis' },
         fund_tokens)

/-- Embeds the `withdraw` instruction handler from
src/programs/maek-protocol/src/instructions/withdraw.rs lines 59-117.
The fund-token burn and the USDC transfer are CPIs into the external token
program.  Returns the updated fund state, the updated user account and the
USDC amount paid out. -/
def withdraw (st : FundState) (ua : UserFundAccount) (now : Int) (fund_tokens : Nat) :
    Except ErrorCode (FundState × UserFundAccount × Nat) :=
  if st.is_paused then .error .fundPaused
  else if fund_tokens = 0 then .error .withdrawAmountZero
  else if ua.fund_tokens < fund_tokens then .error .insufficientFundTokens
  else
    (calculate_withdrawal_amount fund_tokens st.nav_per_share).bind fun usdc_amount =>
    if st.cash_reserves < usdc_amount then .error .insufficientLiquidity
    else
      (checked_sub st.total_assets (usdc_amount * 100)).bind fun total_assets' =>
      (checked_sub st.total_shares fund_tokens).bind fun total_shares' =>
      (checked_sub st.cash_reserves usdc_amount).bind fun cash_reserves' =>
      (checked_sub ua.fund_tokens fund_tokens).bind fun user_tokens' =>
      (checked_add ua.total_withdrawn (usdc_amount * 100)).bind fun total_withdrawn' =>
      (checked_add ua.withdrawal_count 1).bind fun withdrawal_count' =>
      .ok ({ st with total_assets := total_assets', total_shares := total_shares',
                     cash_reserves := cash_reserves' },
           { ua with fund_tokens := user_tokens', total_withdrawn := total_withdrawn',
                     last_withdrawal_time := now, withdrawal_count := withdrawal_count' },
           usdc_amount)

/-- States the caller-visible outcome of a withdraw transaction: on success
the returned records replace the old ones, and on any error the whole
transaction aborts, so the pre-state is kept. -/
def applyWithdraw (st : FundState) (ua : UserFundAccount) (now : Int) (fund_tokens : Nat) :
    FundState × UserFundAccount :=
  match withdraw st ua now fund_tokens with
  | .ok (st', ua', _) => (st', ua')
  | .error _ => (st, ua)

/-- Concrete fund state used to exercise the missing NAV-bounds check:
cash reserves of 20,000,000,000 (6-decimal, twenty thousand dollars) give
recomputed assets of 2×10^12 against 10^12 shares, a true NAV of
200,000,000 — far above the 105,000,000 ceiling. -/
def c3State : FundState :=
  { total_assets := 1000000000000, total_shares := 1000000000000,
    nav_per_share := 100000000, last_nav_update := 0,
    cash_reserves := 20000000000, is_paused := false,
    total_yield_distributed := 0, total_depositors := 1 }

/-- C3: the claim states `update_nav` rejects any update whose resulting
NAV falls outside [95,000,000, 105,000,000], leaving state unchanged.  The
handler has no bounds check at all (the band lives only in the uncalled
helper `calculate_nav_per_share`): with recomputed assets of 2×10^12 and
10^12 shares — a true 8-decimal NAV of 200,000,000, above the ceiling —
the update succeeds and commits. -/
theorem C3_update_nav_no_bounds_check :
    update_nav c3State 100000 [] 0 =
      .ok { c3State with nav_per_share := 2, total_assets := 2000000000000,
                         last_nav_update := 100000 } ∧
    (2000000000000 * 100000000 / 1000000000000 : Nat) > 105000000 :=
  ⟨rfl, by norm_num⟩

/-- Concrete fund state for the NAV-scaling divergence: cash reserves of
10,000,000,000 (6-decimal) give recomputed assets of 10^12 (8-decimal)
against 10^12 shares. -/
def c4State : FundState :=
  { total_assets := 1000000000000, total_shares := 1000000000000,
    nav_per_share := 100000000, last_nav_update := 0,
    cash_reserves := 10000000000, is_paused := false,
    total_yield_distributed := 0, total_depositors := 1 }

/-- C4: the claim states a successful `update_nav` with positive shares
sets `nav_per_share` to floor(new_total_assets × 10^8 / total_shares), and
gives 100,012,328 for assets 10^12, shares 10^12, P&L +123,287,671.  The
handler omits the 10^8 scale factor — it computes
`new_total_assets.checked_div(total_shares)` and stores 1 — while the
helper `update_nav_with_pnl` (which the handler never calls) matches the
claim exactly on both concrete scenarios. -/
theorem C4_update_nav_missing_scale_factor :
    update_nav c4State 100000 [] 123287671 =
      .ok { c4State with nav_per_share := 1, total_assets := 1000123287671,
                         last_nav_update := 100000,
                         total_yield_distributed := 123287671 } ∧
    update_nav_with_pnl 1000000000000 1000000000000 123287671 =
      .ok (1000123287671, 100012328) ∧
    update_nav_with_pnl 1000000000000 1000000000000 (-5000000000) =
      .ok (995000000000, 99500000) ∧
    (1 : Nat) ≠ 100012328 :=
  ⟨rfl, rfl, rfl, by norm_num⟩

/-- Concrete paused fund state: identical to an ordinary healthy state
except that `is_paused` is set. -/
def c7State : FundState :=
  { total_assets := 1000000000000, total_shares := 1000000000000,
    nav_per_share := 100000000, last_nav_update := 0,
    cash_reserves := 10000000000, is_paused := true,
    total_yield_distributed := 0, total_depositors := 1 }

/-- C7: the claim states every `update_nav` call on a paused fund fails and
leaves the state unchanged.  The handler never reads `is_paused`: on a
paused fund with the rate limit elapsed it succeeds and commits new totals,
a new NAV and a new update timestamp. -/
theorem C7_update_nav_ignores_pause :
    c7State.is_paused = true ∧
    update_nav c7State 100000 [] 0 =
      .ok { c7State with nav_per_share := 1, total_assets := 1000000000000,
                         last_nav_update := 100000 } :=
  ⟨rfl, rfl⟩

/-- C5: for positive share count and NAV, whenever the payout is
representable in a u64 the withdrawal computation returns
floor(floor(s × n / 10^8) / 10^2), exactly as the claim states. -/
theorem C5_calculate_withdrawal_amount_formula (s n : Nat) (hs : 0 < s) (hn : 0 < n)
    (hfit : s * n / 100000000 / 100 ≤ U64_MAX) :
    calculate_withdrawal_amount s n = .ok (s * n / 100000000 / 100) := by
  simp only [calculate_withdrawal_amount]
  rw [if_neg (Nat.pos_iff_ne_zero.mp hs), if_neg (Nat.pos_iff_ne_zero.mp hn),
    if_neg (not_lt.mpr hfit)]

/-- Witness for C5 at the claim's concrete scenario: withdrawing
100,000,000,000 shares at NAV 102,000,000 returns exactly 1,020,000,000. -/
theorem C5_calculate_withdrawal_amount_witness :
    calculate_withdrawal_amount 100000000000 102000000 = .ok 1020000000 := by
  have h := C5_calculate_withdrawal_amount_formula 100000000000 102000000
    (by norm_num) (by norm_num) (by decide)
  rw [h]

/-- C6: a withdrawal that passes the pause, positivity and balance checks
but whose computed USDC return exceeds the cash reserves fails with
`InsufficientLiquidity`, and the transaction leaves both the fund state and
the user account unchanged — no partial fulfilment. -/
theorem C6_liquidity_guard (st : FundState) (ua : UserFundAccount) (now : Int)
    (tokens amt : Nat) (hp : st.is_paused = false) (ht : 0 < tokens)
    (hb : tokens ≤ ua.fund_tokens)
    (hcalc : calculate_withdrawal_amount tokens st.nav_per_share = .ok amt)
    (hliq : st.cash_reserves < amt) :
    withdraw st ua now tokens = .error .insufficientLiquidity ∧
    applyWithdraw st ua now tokens = (st, ua) := by
  have hw : withdraw st ua now tokens = .error .insufficientLiquidity := by
    unfold withdraw
    rw [hp, if_neg (fun h => Bool.noConfusion h), if_neg (Nat.pos_iff_ne_zero.mp ht),
      if_neg (not_lt.mpr hb), hcalc]
    simp only [Except.bind]
    rw [if_pos hliq]
  refine ⟨hw, ?_⟩
  unfold applyWithdraw
  rw [hw]

/-- Concrete fund state for the liquidity-guard witness: healthy NAV but
only 5 micro-units of cash on hand. -/
def c6State : FundState :=
  { total_assets := 1000000000000, total_shares := 1000000000000,
    nav_per_share := 100000000, last_nav_update := 0,
    cash_reserves := 5, is_paused := false,
    total_yield_distributed := 0, total_depositors := 1 }

/-- Concrete user account holding 1000.00000000 fund tokens. -/
def c6User : UserFundAccount :=
  { owner := 7, fund_tokens := 100000000000, total_deposited := 100000000000000,
    total_withdrawn := 0, avg_cost_basis := 100000000, last_deposit_time := 0,
    last_withdrawal_time := 0, last_deposit_nav := 100000000, deposit_count := 1,
    withdrawal_count := 0, created_at := 0 }

/-- Witness for C6: withdrawing 100,000,000,000 tokens at NAV 100,000,000
computes a 1,000,000,000 return against reserves of 5 and aborts. -/
theorem C6_liquidity_guard_witness :
    withdraw c6State c6User 0 100000000000 = .error .insufficientLiquidity ∧
    applyWithdraw c6State c6User 0 100000000000 = (c6State, c6User) :=
  C6_liquidity_guard c6State c6User 0 100000000000 1000000000 rfl (by norm_num)
    (Nat.le_refl _) rfl (by decide)

/-- Concrete fund state for C10: NAV at the top of the allowed band. -/
def c10State : FundState :=
  { total_assets := 1000000000000, total_shares := 1000000000000,
    nav_per_share := 105000000, last_nav_update := 0,
    cash_reserves := 10000000000, is_paused := false,
    total_yield_distributed := 0, total_depositors := 1 }

/-- Concrete existing depositor for C10 (the avg-cost-basis division in the
handler requires a non-empty prior holding when zero tokens are minted). -/
def c10User : UserFundAccount :=
  { owner := 5, fund_tokens := 100000000000, total_deposited := 0,
    total_withdrawn := 0, avg_cost_basis := 100000000, last_deposit_time := 0,
    last_withdrawal_time := 0, last_deposit_nav := 100000000, deposit_count := 1,
    withdrawal_count := 0, created_at := 0 }

/-- C10: the deposit of 1,000,000 (at or above the handler's 1,000,000
minimum) at NAV 105,000,000 (inside [95,000,000, 105,000,000]) succeeds and
mints 0 fund tokens: the returned state keeps `total_shares` and the user's
`fund_tokens` unchanged while `total_assets` grows by 100,000,000 (8-dec)
and `cash_reserves` by 1,000,000 (6-dec). -/
theorem C10_zero_share_deposit_accepted :
    deposit c10State c10User 5 0 1000000 =
      .ok ({ c10State with total_assets := 1000100000000, cash_reserves := 10001000000 },
           { c10User with total_deposited := 100000000, last_deposit_nav := 105000000,
                          deposit_count := 2 },
           0) ∧
    c10State.total_assets + 100000000 = 1000100000000 ∧
    c10State.cash_reserves + 1000000 = 10001000000 ∧
    95000000 ≤ c10State.nav_per_share ∧ c10State.nav_per_share ≤ 105000000 :=
  ⟨rfl, rfl, rfl, by norm_num [c10State], by norm_num [c10State]⟩

/-- Fixed-income asset classes from
src/programs/maek-protocol/src/state/fixed_income_asset.rs. -/
inductive FixedIncomeAssetType where
  | treasuryBill
  | treasuryNote
  | treasuryBond
  | corporateBond
  | commercialPaper
  | certificateOfDeposit
  | municipalBond
  | assetBackedSecurity
  | mortgageBackedSecurity
  deriving DecidableEq, Repr

/-- Matches the source's
`matches!(asset_type, TreasuryBill | TreasuryNote | TreasuryBond)` test in
`validate_investment_limits`. -/
def isTreasury : FixedIncomeAssetType → Bool
  | .treasuryBill | .treasuryNote | .treasuryBond => true
  | _ => false

/-- Asset-class concentration limit table computed by
`validate_investment_limits` (validation.rs lines 127-134).  The source
binds this value to a local variable that is never read afterwards. -/
def asset_type_limit : FixedIncomeAssetType → Nat
  | .treasuryBill | .treasuryNote | .treasuryBond => 8000
  | .corporateBond => 4000
  | .certificateOfDeposit => 3000
  | _ => 2000

/-- Embeds `validate_investment_limits` from
src/programs/maek-protocol/src/utils/validation.rs lines 114-146.  The
percentages are floored basis points of the post-investment portfolio
value; the issuer check runs only for non-treasury asset types; the
asset-class limit is computed but not enforced, exactly as in the source.
The source's u64 additions are unchecked and its u128 divisions panic on a
zero denominator; the theorems below carry matching range hypotheses. -/
def validate_investment_limits (investment_amount current_portfolio_value : Nat)
    (asset_type : FixedIncomeAssetType) (same_issuer_total : Nat) :
    Except ErrorCode Unit :=
  let total_after_investment := current_portfolio_value + investment_amount
  let investment_percentage := investment_amount * 10000 / total_after_investment
  if investment_percentage > 1000 then .error .investmentAmountExceedsLimit
  else
    let _asset_type_limit := asset_type_limit asset_type
    if isTreasury asset_type = false then
      let issuer_total_after := same_issuer_total + investment_amount
      let issuer_percentage := issuer_total_after * 10000 / total_after_investment
      if issuer_percentage > 500 then .error .portfolioConcentrationExceeded
      else .ok ()
    else .ok ()

/-- C8 counterexample: the claim states treasury-class investments are
still rejected when they push treasury holdings above 80% of the
portfolio, and that any single investment exceeding 10% is rejected.  A
treasury-bill purchase of 100 into a 900 portfolio entirely held in
same-issuer treasuries (post-investment treasury share 100% of 1000) is
accepted, and a treasury-bill purchase of 10,001 into 89,999 (10.001% of
the post-investment portfolio, above 10%) is also accepted because only
the floored basis-point value is compared against 1000. -/
theorem C8_treasury_ceiling_not_enforced :
    validate_investment_limits 100 900 .treasuryBill 900 = .ok () ∧
    (900 + 100) * 10000 / (900 + 100) > 8000 ∧
    validate_investment_limits 10001 89999 .treasuryBill 0 = .ok () ∧
    10001 * 10 > 89999 + 10001 :=
  ⟨rfl, by norm_num, rfl, by norm_num⟩

/-- C8 amended: `validate_investment_limits` accepts exactly when the
floored basis-point share of the investment in the post-investment
portfolio is at most 1000 and, for non-treasury asset types only, the
floored basis-point share of the issuer's post-investment total is at most
500.  Treasury types skip the issuer check and no asset-class ceiling is
enforced (the 80% treasury limit is computed but unused). -/
theorem C8_amended_characterization (investment_amount current_portfolio_value : Nat)
    (asset_type : FixedIncomeAssetType) (same_issuer_total : Nat)
    (hpos : 0 < current_portfolio_value + investment_amount)
    (hfit : current_portfolio_value + investment_amount ≤ U64_MAX)
    (hfit2 : same_issuer_total + investment_amount ≤ U64_MAX) :
    validate_investment_limits investment_amount current_portfolio_value
        asset_type same_issuer_total = .ok () ↔
      (investment_amount * 10000 / (current_portfolio_value + investment_amount) ≤ 1000 ∧
        (isTreasury asset_type = false →
          (same_issuer_total + investment_amount) * 10000 /
              (current_portfolio_value + investment_amount) ≤ 500)) := by
  simp only [validate_investment_limits]
  rcases Nat.lt_or_ge 1000
      (investment_amount * 10000 / (current_portfolio_value + investment_amount)) with h1 | h1
  · rw [if_pos h1]
    constructor
    · intro h; exact Except.noConfusion h
    · rintro ⟨ha, -⟩; exact absurd h1 (not_lt.mpr ha)
  · rw [if_neg (not_lt.mpr h1)]
    cases ht : isTreasury asset_type with
    | false =>
      rw [if_pos rfl]
      rcases Nat.lt_or_ge 500
          ((same_issuer_total + investment_amount) * 10000 /
            (current_portfolio_value + investment_amount)) with h2 | h2
      · rw [if_pos h2]
        constructor
        · intro h; exact Except.noConfusion h
        · rintro ⟨-, hb⟩; exact absurd h2 (not_lt.mpr (hb rfl))
      · rw [if_neg (not_lt.mpr h2)]
        exact ⟨fun _ => ⟨h1, fun _ => h2⟩, fun _ => rfl⟩
    | true =>
      rw [if_neg (fun h => Bool.noConfusion h)]
      exact ⟨fun _ => ⟨h1, fun hf => Bool.noConfusion hf⟩, fun _ => rfl⟩

/-- Witness for C8 amended: a corporate-bond purchase of 40 into a 960
portfolio (400 bp of the post-investment portfolio, fresh issuer) passes
both enforced checks and is accepted. -/
theorem C8_amended_characterization_witness :
    validate_investment_limits 40 960 .corporateBond 0 = .ok () :=
  (C8_amended_characterization 40 960 .corporateBond 0 (by norm_num)
    (by decide) (by decide)).mpr (by decide)

/-- C9 counterexample: with assets 10,000,000,000,000 and an annual rate of
15 bps (a positive rate below 365 bps and under the 500 bps ceiling) the
daily fee is 41,095,890, not 0: the implementation computes
`total_assets * annual_fee_bps / 10_000` first and divides by 365 only
afterwards, so small rates are not truncated to a zero daily rate. -/
theorem C9_fee_divides_after_multiplying :
    calculate_daily_management_fee 10000000000000 15 = .ok 41095890 ∧
    (41095890 : Nat) ≠ 0 ∧ 0 < (10000000000000 : Nat) ∧
    0 < (15 : Nat) ∧ (15 : Nat) < 365 ∧ (15 : Nat) ≤ 500 :=
  ⟨rfl, by norm_num, by norm_num, by norm_num, by norm_num, by norm_num⟩

/-- C9 amended: for positive u64 assets and a rate within the 500 bps
ceiling, the daily fee is floor(floor(total_assets × bps / 10,000) / 365) —
the annual fee amount is computed first and the division by 365 happens
last, so the result is zero only when total_assets × bps < 3,650,000. -/
theorem C9_amended_daily_fee_formula (total_assets annual_fee_bps : Nat)
    (h1 : 0 < total_assets) (h2 : total_assets ≤ U64_MAX)
    (h3 : annual_fee_bps ≤ 500) :
    calculate_daily_management_fee total_assets annual_fee_bps =
      .ok (total_assets * annual_fee_bps / 10000 / 365) := by
  have hda : total_assets * annual_fee_bps / 10000 / 365 ≤ U64_MAX := by
    have hc : total_assets * annual_fee_bps / 10000 / 365 ≤ total_assets * 500 / 3650000 := by
      rw [Nat.div_div_eq_div_mul]
      exact Nat.div_le_div_right (Nat.mul_le_mul (Nat.le_refl total_assets) h3)
    have hd : total_assets * 500 / 3650000 ≤ total_assets :=
      Nat.div_le_of_le_mul' (by
        rw [Nat.mul_comm 3650000 total_assets]
        exact Nat.mul_le_mul (Nat.le_refl total_assets) (by norm_num))
    exact le_trans hc (le_trans hd h2)
  simp only [calculate_daily_management_fee]
  rw [if_neg (Nat.pos_iff_ne_zero.mp h1), if_neg (not_lt.mpr h3), if_neg (not_lt.mpr hda)]

/-- Witness for C9 amended: assets 10,000,000 at 100 bps give a daily fee
of floor(100,000 / 365) = 273. -/
theorem C9_amended_daily_fee_formula_witness :
    calculate_daily_management_fee 10000000 100 = .ok 273 := by
  have h := C9_amended_daily_fee_formula 10000000 100 (by norm_num) (by decide) (by norm_num)
  rw [h]

end Maek
